import Mathlib

/-!
Verification of the `File` location-reference class of
`src/parsl/data_provider/files.py`.

The class stores a URL string, parses it with Python's
`urllib.parse.urlparse`, and resolves a context-dependent filepath.  The
embedding below models, on `List Char` / `String`:

* `urllib.parse.urlparse` (CPython, restricted to the fields the source
  reads: `scheme`, `netloc`, `path`), including the lowercasing of the
  scheme, the netloc split, fragment and query stripping, the params
  split for schemes in `uses_params`, and the `ValueError("Invalid IPv6
  URL")` raised for a netloc with an unmatched bracket.  The NFKC
  netloc check (which only concerns non-ASCII netlocs) and the
  parse cache are not modelled.
* `os.path.basename` (posixpath): the suffix after the last `'/'`.
* the `typeguard.typechecked` decorator on `File.__init__`, which raises
  `TypeError` when the argument is not a `str`; Python values are
  modelled by a small dynamic type `PyVal`.

Python exceptions are modelled by `PyErr`; every method that can raise
returns `Except PyErr _`.  Setting the `local_path` attribute (done by
external staging code, and observed via `hasattr` in `filepath`) is
modelled by an `Option String` field that starts out `none` and is set
with `File.setLocalPath`.  The `logger.debug` call in `__str__` is an
I/O side effect outside the value model and is not represented.
-/

namespace ParslFiles

/-- Python exception values (only the kinds this code can raise). -/
inductive PyErr where
  | typeError (msg : String)
  | valueError (msg : String)
  | exception (msg : String)
deriving DecidableEq

/-- A small model of dynamically typed Python values, enough to state
what `typeguard` does with non-`str` arguments. -/
inductive PyVal where
  | str (s : String)
  | int (n : Int)
  | boolean (b : Bool)
  | pyNone
  | pyList (xs : List PyVal)

/-- Model of `urllib.parse.scheme_chars`: ASCII letters, digits, `+`, `-`, `.`. -/
def schemeChar (c : Char) : Bool :=
  c.isAlpha || c.isDigit || c == '+' || c == '-' || c == '.'

/-- The scheme-extraction step of `urlsplit`: if the text before the
first `':'` is nonempty, starts with an ASCII letter and is made of
scheme characters, it is the scheme (lowercased) and the remainder
follows the colon; otherwise the scheme is empty and the whole input
remains. -/
def splitScheme (url : List Char) : List Char × List Char :=
  let pre := url.takeWhile (fun c => c ≠ ':')
  if pre.length < url.length ∧ pre ≠ [] ∧ pre.headI.isAlpha ∧ pre.all schemeChar then
    (pre.map Char.toLower, url.drop (pre.length + 1))
  else
    ([], url)

/-- A character ending the netloc component (`_splitnetloc` stops at the
first of `'/'`, `'?'`, `'#'`). -/
def notNetlocEnd (c : Char) : Bool := !(c == '/' || c == '?' || c == '#')

/-- Model of `_splitnetloc`: when the remainder starts with `//`, the netloc is
everything after the two slashes up to the first `/`, `?` or `#`. -/
def splitNetloc (l : List Char) : List Char × List Char :=
  if l.take 2 = ['/', '/'] then
    ((l.drop 2).takeWhile notNetlocEnd, (l.drop 2).dropWhile notNetlocEnd)
  else ([], l)

/-- Python's `s.split(ch, 1)` when `ch` occurs: the part before the
first occurrence and the part after it. -/
def splitOnFirst (ch : Char) (l : List Char) : List Char × List Char :=
  (l.takeWhile (fun c => c ≠ ch), (l.dropWhile (fun c => c ≠ ch)).drop 1)

/-- Result of `urlsplit` restricted to the components the source uses. -/
structure UrlSplitResult where
  scheme : List Char
  netloc : List Char
  path : List Char
  query : List Char
  fragment : List Char
deriving DecidableEq

/-- Model of `urllib.parse.urlsplit` with the default arguments `File.__init__`
uses (`scheme=''`, `allow_fragments=True`): extract the scheme, then the
netloc after a leading `//` (rejecting an unmatched `[`/`]` with
`ValueError`), then split off the fragment at the first `#`, then the
query at the first `?`. -/
def urlsplitList (url : List Char) : Except PyErr UrlSplitResult :=
  let scheme := (splitScheme url).1
  let rest1 := (splitScheme url).2
  let netloc := (splitNetloc rest1).1
  let rest2 := (splitNetloc rest1).2
  if ('[' ∈ netloc ∧ ']' ∉ netloc) ∨ (']' ∈ netloc ∧ '[' ∉ netloc) then
    .error (.valueError "Invalid IPv6 URL")
  else
    let rest3 := if '#' ∈ rest2 then (splitOnFirst '#' rest2).1 else rest2
    let fragment := if '#' ∈ rest2 then (splitOnFirst '#' rest2).2 else []
    let path := if '?' ∈ rest3 then (splitOnFirst '?' rest3).1 else rest3
    let query := if '?' ∈ rest3 then (splitOnFirst '?' rest3).2 else []
    .ok ⟨scheme, netloc, path, query, fragment⟩

/-- Model of `posixpath.basename`: `p[p.rfind('/') + 1:]`, the suffix after the
last `'/'` (the whole string when there is no `'/'`). -/
def basenameList (l : List Char) : List Char :=
  (l.reverse.takeWhile (fun c => c ≠ '/')).reverse

/-- Model of `os.path.basename` on strings. -/
def basenameStr (s : String) : String := (basenameList s.toList).asString

/-- Model of `urllib.parse._splitparams`: split `;params` off the last path
segment (off the whole path when it has no `/`).  Only called when the
path contains a `';'`. -/
def splitparamsList (p : List Char) : List Char × List Char :=
  if '/' ∈ p then
    if ';' ∈ basenameList p then
      (p.take (p.length - (basenameList p).length) ++
        (splitOnFirst ';' (basenameList p)).1,
       (splitOnFirst ';' (basenameList p)).2)
    else (p, [])
  else splitOnFirst ';' p

/-- Model of `urllib.parse.uses_params`: the schemes whose paths carry
`;params`. -/
def usesParams : List (List Char) :=
  [[], "ftp".toList, "hdl".toList, "prospero".toList, "http".toList,
   "imap".toList, "https".toList, "shttp".toList, "rtsp".toList,
   "rtspu".toList, "sip".toList, "sips".toList, "mms".toList,
   "sftp".toList, "tel".toList]

/-- Result of `urlparse` restricted to the components the source uses. -/
structure UrlParseResult where
  scheme : List Char
  netloc : List Char
  path : List Char
  params : List Char
  query : List Char
  fragment : List Char
deriving DecidableEq

/-- Model of `urllib.parse.urlparse`: `urlsplit`, then the params split when the
scheme is in `uses_params` and the path contains a `';'`. -/
def urlparseList (url : List Char) : Except PyErr UrlParseResult :=
  (urlsplitList url).map fun r =>
    if r.scheme ∈ usesParams ∧ ';' ∈ r.path then
      ⟨r.scheme, r.netloc, (splitparamsList r.path).1,
       (splitparamsList r.path).2, r.query, r.fragment⟩
    else ⟨r.scheme, r.netloc, r.path, [], r.query, r.fragment⟩

/-- The `parsl.data_provider.files.File` object after `__init__`:
`url` is the string given to the constructor, `scheme`/`netloc`/`path`
come from `urlparse(url)` (scheme defaulted to `"file"` when falsy),
`filename = os.path.basename(path)`, and `local_path` models the
attribute of the same name that external staging code may set later
(`hasattr(self, 'local_path')` becomes `local_path ≠ none`). -/
structure File where
  url : String
  scheme : String
  netloc : String
  path : String
  filename : String
  local_path : Option String
deriving DecidableEq

/-- The body of `File.__init__` on an actual string (after the
`typeguard` check has passed): parse and populate the attributes.  A
`ValueError` from `urlparse` propagates to the caller. -/
def File.make (url : String) : Except PyErr File :=
  (urlparseList url.toList).map fun pr =>
    { url := url,
      scheme := if pr.scheme = [] then "file" else pr.scheme.asString,
      netloc := pr.netloc.asString,
      path := pr.path.asString,
      filename := basenameStr pr.path.asString,
      local_path := none }

/-- Calling `File(url)` from Python: the `typeguard.typechecked`
decorator raises `TypeError` for any non-`str` argument before the body
runs. -/
def File.fromPy : PyVal → Except PyErr File
  | .str s => File.make s
  | _ => .error (.typeError "type of argument url must be str")

/-- The recognized remote schemes (the literal list
`['ftp', 'http', 'https', 'globus']` of the source). -/
def remoteSchemes : List String := ["ftp", "http", "https", "globus"]

/-- Model of `File.is_remote`: `True` for a recognized remote scheme, `False`
for `file`, otherwise `raise Exception(...)` naming the scheme. -/
def File.is_remote (f : File) : Except PyErr Bool :=
  if f.scheme ∈ remoteSchemes then .ok true
  else if f.scheme ∈ ["file"] then .ok false
  else .error (.exception
    ("Cannot determine if unknown file scheme " ++ f.scheme ++ " is remote"))

/-- The `File.filepath` property: the `local_path` attribute when it has
been set, else the basename for a recognized remote scheme, else the
parsed path for `file`, otherwise `raise Exception(...)` naming the
scheme. -/
def File.filepath (f : File) : Except PyErr String :=
  match f.local_path with
  | some p => .ok p
  | none =>
    if f.scheme ∈ remoteSchemes then .ok f.filename
    else if f.scheme ∈ ["file"] then .ok f.path
    else .error (.exception
      ("Cannot return filepath for unknown scheme " ++ f.scheme))

/-- Model of `File.__str__` (minus its `logger.debug` call): `self.filepath`. -/
def File.toText (f : File) : Except PyErr String := f.filepath

/-- Model of `File.__repr__`: `self.__str__()`. -/
def File.reprText (f : File) : Except PyErr String := f.toText

/-- Model of `File.__fspath__`: `self.filepath`. -/
def File.fspath (f : File) : Except PyErr String := f.filepath

/-- The external staging actor's override binding: the Python attribute
assignment `f.local_path = p`. -/
def File.setLocalPath (f : File) (p : String) : File :=
  { f with local_path := some p }

/-! Helper lemmas about the embedding. -/

/-- A freshly constructed `File` has no override, a `filename` that is
the basename of its `path`, and remembers the original `url`. -/
theorem File.make_fields {url : String} {f : File} (h : File.make url = .ok f) :
    f.local_path = none ∧ f.filename = basenameStr f.path ∧ f.url = url := by
  unfold File.make at h
  cases hp : urlparseList url.toList with
  | error e => rw [hp] at h; exact Except.noConfusion h
  | ok pr =>
    rw [hp] at h
    simp only [Except.map, Except.ok.injEq] at h
    subst h
    exact ⟨rfl, rfl, rfl⟩

/-- The only error `urlsplit` can produce is the bracket `ValueError`. -/
theorem urlsplitList_error (l : List Char) (e : PyErr)
    (h : urlsplitList l = .error e) : e = .valueError "Invalid IPv6 URL" := by
  simp only [urlsplitList] at h
  split at h
  · injection h with h'
    exact h'.symm
  · exact Except.noConfusion h

/-- The only error `File.make` can produce is the bracket `ValueError`
propagated from `urlparse`. -/
theorem File.make_error {url : String} {e : PyErr}
    (h : File.make url = .error e) : e = .valueError "Invalid IPv6 URL" := by
  unfold File.make at h
  cases hp : urlparseList url.toList with
  | ok pr => rw [hp] at h; simp only [Except.map] at h; exact Except.noConfusion h
  | error e2 =>
    rw [hp] at h
    simp only [Except.map, Except.error.injEq] at h
    subst h
    unfold urlparseList at hp
    cases hs : urlsplitList url.toList with
    | ok r => rw [hs] at hp; simp only [Except.map] at hp; exact Except.noConfusion hp
    | error e3 =>
      rw [hs] at hp
      simp only [Except.map, Except.error.injEq] at hp
      subst hp
      exact urlsplitList_error _ _ hs

/-- The basename of a character list ending in `'/'` is empty. -/
theorem basenameList_append_slash (a : List Char) :
    basenameList (a ++ ['/']) = [] := by
  unfold basenameList
  rw [List.reverse_append]
  simp

/-- The basename of a string ending in `"/"` is empty. -/
theorem basenameStr_append_slash (s : String) :
    basenameStr (s ++ "/") = "" := by
  unfold basenameStr
  have hl : (s ++ "/").toList = s.toList ++ ['/'] := String.data_append s "/"
  rw [hl, basenameList_append_slash]
  rfl

/-- Equality of `Except` values is decidable when it is on both sides. -/
instance {e a : Type} [DecidableEq e] [DecidableEq a] : DecidableEq (Except e a) :=
  fun x y =>
    match x, y with
    | .ok u, .ok v =>
      if h : u = v then isTrue (by rw [h]) else isFalse (fun hc => h (Except.ok.inj hc))
    | .error u, .error v =>
      if h : u = v then isTrue (by rw [h]) else isFalse (fun hc => h (Except.error.inj hc))
    | .ok _, .error _ => isFalse Except.noConfusion
    | .error _, .ok _ => isFalse Except.noConfusion

/-- With no override set, `filepath` is the scheme dispatch. -/
theorem File.filepath_of_none {f : File} (hl : f.local_path = none) :
    f.filepath =
      (if f.scheme ∈ remoteSchemes then Except.ok f.filename
       else if f.scheme ∈ (["file"] : List String) then Except.ok f.path
       else Except.error (.exception
         ("Cannot return filepath for unknown scheme " ++ f.scheme))) := by
  unfold File.filepath
  rw [hl]

/-! Concrete `File` values used to witness the theorems below. -/

/-- The result of `File("http://h/d/x.txt")`. -/
def fileHttp : File :=
  ⟨"http://h/d/x.txt", "http", "h", "/d/x.txt", "x.txt", none⟩

/-- The result of `File("sftp://host/path")`: an unrecognized scheme. -/
def fileSftp : File :=
  ⟨"sftp://host/path", "sftp", "host", "/path", "path", none⟩

/-- The result of `File("http://host/dir/")`: a remote path ending in
a slash. -/
def fileDirSlash : File :=
  ⟨"http://host/dir/", "http", "host", "/dir/", "", none⟩

/-- The result of `File("globus://ep/d/x.txt")`. -/
def fileGlobus : File :=
  ⟨"globus://ep/d/x.txt", "globus", "ep", "/d/x.txt", "x.txt", none⟩

/-! The claims. -/

/-- C1: for a `File` constructed from a URL, before any override is set,
`filepath` is the basename of the parsed path when the scheme is one of
`ftp`, `http`, `https`, `globus`, and is the full parsed path when the
scheme is `file` (which includes every URL with no scheme, since
construction defaults an absent scheme to `file`). -/
theorem filepath_before_override (url : String) (f : File)
    (h : File.make url = .ok f) :
    (f.scheme ∈ remoteSchemes → f.filepath = .ok (basenameStr f.path)) ∧
    (f.scheme = "file" → f.filepath = .ok f.path) := by
  obtain ⟨hl, hn, -⟩ := File.make_fields h
  constructor
  · intro hs
    rw [File.filepath_of_none hl, if_pos hs, hn]
  · intro hs
    have h1 : f.scheme ∉ remoteSchemes := by rw [hs]; decide
    rw [File.filepath_of_none hl, if_neg h1, if_pos (List.mem_singleton.mpr hs)]

/-- Witness for C1 at `File("http://h/d/x.txt")`. -/
theorem filepath_before_override_witness :
    fileHttp.filepath = .ok (basenameStr fileHttp.path) :=
  (filepath_before_override "http://h/d/x.txt" fileHttp (by decide)).1 (by decide)

/-- C2: once the local override has been bound to `P`, `filepath`
returns exactly `P`, for every reference and every scheme (the override
check precedes the scheme dispatch, so no scheme branch and no
unknown-scheme error is reachable). -/
theorem filepath_after_override (f : File) (p : String) :
    (f.setLocalPath p).filepath = .ok p := rfl

/-- C3: `is_remote` returns `True` exactly for the schemes `ftp`,
`http`, `https`, `globus`, returns `False` exactly for `file`, and is a
pure function of the `scheme` field. -/
theorem is_remote_spec (f : File) :
    (f.is_remote = .ok true ↔ f.scheme ∈ remoteSchemes) ∧
    (f.is_remote = .ok false ↔ f.scheme = "file") ∧
    (∀ g : File, g.scheme = f.scheme → g.is_remote = f.is_remote) := by
  refine ⟨⟨fun h => ?_, fun hs => ?_⟩, ⟨fun h => ?_, fun hs => ?_⟩, fun g hg => ?_⟩
  · by_cases hs : f.scheme ∈ remoteSchemes
    · exact hs
    · exfalso
      unfold File.is_remote at h
      rw [if_neg hs] at h
      by_cases hf : f.scheme ∈ (["file"] : List String)
      · rw [if_pos hf] at h
        exact Bool.noConfusion (Except.ok.inj h)
      · rw [if_neg hf] at h
        exact Except.noConfusion h
  · unfold File.is_remote
    rw [if_pos hs]
  · by_cases hs : f.scheme ∈ remoteSchemes
    · unfold File.is_remote at h
      rw [if_pos hs] at h
      exact absurd (Except.ok.inj h) (by decide)
    · unfold File.is_remote at h
      rw [if_neg hs] at h
      by_cases hf : f.scheme ∈ (["file"] : List String)
      · exact List.mem_singleton.mp hf
      · rw [if_neg hf] at h
        exact Except.noConfusion h
  · have h1 : f.scheme ∉ remoteSchemes := by rw [hs]; decide
    unfold File.is_remote
    rw [if_neg h1, if_pos (List.mem_singleton.mpr hs)]
  · unfold File.is_remote
    rw [hg]

/-- Witness for C3 at `File("http://h/d/x.txt")`. -/
theorem is_remote_spec_witness : fileHttp.is_remote = .ok true :=
  (is_remote_spec fileHttp).1.mpr (by decide)

/-- C4: for a scheme that is neither `file` nor a recognized remote
scheme, `is_remote` and (with no override bound) `filepath` both fail
with the exception whose message names the offending scheme. -/
theorem unknown_scheme_rejected (f : File)
    (h1 : f.scheme ∉ remoteSchemes) (h2 : f.scheme ≠ "file") :
    f.is_remote = .error (.exception
      ("Cannot determine if unknown file scheme " ++ f.scheme ++ " is remote")) ∧
    (f.local_path = none → f.filepath = .error (.exception
      ("Cannot return filepath for unknown scheme " ++ f.scheme))) := by
  have h2' : f.scheme ∉ (["file"] : List String) := fun hc =>
    h2 (List.mem_singleton.mp hc)
  constructor
  · unfold File.is_remote
    rw [if_neg h1, if_neg h2']
  · intro hl
    rw [File.filepath_of_none hl, if_neg h1, if_neg h2']

/-- Witness for C4 at `File("sftp://host/path")`. -/
theorem unknown_scheme_rejected_witness :
    fileSftp.is_remote = .error (.exception
      ("Cannot determine if unknown file scheme " ++ fileSftp.scheme ++ " is remote")) ∧
    fileSftp.filepath = .error (.exception
      ("Cannot return filepath for unknown scheme " ++ fileSftp.scheme)) :=
  ⟨(unknown_scheme_rejected fileSftp (by decide) (by decide)).1,
   (unknown_scheme_rejected fileSftp (by decide) (by decide)).2 rfl⟩

/-- C5: construction parses the URL with `urlparse`, defaults the scheme
to `file` when the URL carries none (so the stored scheme is never
empty), takes `filename` to be the basename of the parsed path, and
stores the original string unmodified in `url`. -/
theorem construction_parses (url : String) (f : File)
    (h : File.make url = .ok f) :
    ∃ pr : UrlParseResult, urlparseList url.toList = .ok pr ∧
      f.url = url ∧
      f.scheme = (if pr.scheme = [] then "file" else pr.scheme.asString) ∧
      f.scheme ≠ "" ∧
      f.netloc = pr.netloc.asString ∧
      f.path = pr.path.asString ∧
      f.filename = basenameStr f.path := by
  unfold File.make at h
  cases hp : urlparseList url.toList with
  | error e => rw [hp] at h; exact Except.noConfusion h
  | ok pr =>
    rw [hp] at h
    simp only [Except.map, Except.ok.injEq] at h
    subst h
    refine ⟨pr, rfl, rfl, rfl, ?_, rfl, rfl, rfl⟩
    by_cases hs : pr.scheme = []
    · rw [if_pos hs]
      show ("file" : String) ≠ ""
      decide
    · rw [if_neg hs]
      intro hc
      exact hs (congrArg String.data hc)

/-- Witness for C5 at `File("globus://ep/d/x.txt")`. -/
theorem construction_parses_witness :
    ∃ pr : UrlParseResult, urlparseList "globus://ep/d/x.txt".toList = .ok pr ∧
      fileGlobus.url = "globus://ep/d/x.txt" ∧
      fileGlobus.scheme = (if pr.scheme = [] then "file" else pr.scheme.asString) ∧
      fileGlobus.scheme ≠ "" ∧
      fileGlobus.netloc = pr.netloc.asString ∧
      fileGlobus.path = pr.path.asString ∧
      fileGlobus.filename = basenameStr fileGlobus.path :=
  construction_parses "globus://ep/d/x.txt" fileGlobus (by decide)

/-- C6: binding the local override changes no field other than
`local_path`: `is_remote` and the fields `url`, `scheme`, `netloc`,
`path`, `filename` are unchanged, while `filepath` now returns the
bound value. -/
theorem override_preserves_classification (f : File) (p : String) :
    (f.setLocalPath p).is_remote = f.is_remote ∧
    (f.setLocalPath p).filepath = .ok p ∧
    (f.setLocalPath p).url = f.url ∧
    (f.setLocalPath p).scheme = f.scheme ∧
    (f.setLocalPath p).netloc = f.netloc ∧
    (f.setLocalPath p).path = f.path ∧
    (f.setLocalPath p).filename = f.filename :=
  ⟨rfl, rfl, rfl, rfl, rfl, rfl, rfl⟩

/-- C7: `__str__`, `__repr__` and `__fspath__` all return exactly
`filepath`, in every state of the reference. -/
theorem text_conversions (f : File) :
    f.toText = f.filepath ∧ f.reprText = f.filepath ∧ f.fspath = f.filepath :=
  ⟨rfl, rfl, rfl⟩

/-- C8: constructing from the bare path `"input.txt"` yields scheme
`file`, path `input.txt`, name `input.txt`, and `filepath` returns
`input.txt` unchanged. -/
theorem bare_path_roundtrip :
    File.make "input.txt" =
      .ok ⟨"input.txt", "file", "", "input.txt", "input.txt", none⟩ ∧
    File.filepath ⟨"input.txt", "file", "", "input.txt", "input.txt", none⟩ =
      .ok "input.txt" := by
  constructor
  · decide
  · decide

/-- C9 counterexample: the string input `"http://["` makes construction
fail (with the `ValueError` that `urlparse` raises for an unmatched
bracket in the netloc), so construction does not succeed on every
string input. -/
theorem string_input_construction_fails :
    File.fromPy (PyVal.str "http://[") =
      .error (.valueError "Invalid IPv6 URL") := by decide

/-- C9 amended: every non-string input fails with a `TypeError` (the
typed precondition violation, raised by the `typeguard` decorator
before the body runs), and no string input ever fails with a
`TypeError` — though a string input may still fail with the
URL-parsing `ValueError`. -/
theorem typed_precondition_check (v : PyVal) :
    ((∀ s, v ≠ PyVal.str s) → ∃ m, File.fromPy v = .error (.typeError m)) ∧
    (∀ s, v = PyVal.str s → ∀ m, File.fromPy v ≠ .error (.typeError m)) := by
  constructor
  · intro hv
    cases v with
    | str s => exact absurd rfl (hv s)
    | int n => exact ⟨_, rfl⟩
    | boolean b => exact ⟨_, rfl⟩
    | pyNone => exact ⟨_, rfl⟩
    | pyList xs => exact ⟨_, rfl⟩
  · rintro s rfl m hc
    exact PyErr.noConfusion (File.make_error (e := .typeError m) hc)

/-- Witness for the amended C9 at the integer input `3`. -/
theorem typed_precondition_check_witness :
    ∃ m, File.fromPy (PyVal.int 3) = .error (.typeError m) :=
  (typed_precondition_check (PyVal.int 3)).1 (fun _ h => PyVal.noConfusion h)

/-- C10: construction succeeds on the empty string, with every derived
component empty and an empty resolved path; and for every
remote-scheme URL whose parsed path ends in `"/"`, the stored name is
empty, so `filepath` before any override returns `""`. -/
theorem degenerate_paths :
    (File.make "" = .ok ⟨"", "file", "", "", "", none⟩ ∧
      File.filepath ⟨"", "file", "", "", "", none⟩ = .ok "") ∧
    (∀ (url : String) (f : File), File.make url = .ok f →
      f.scheme ∈ remoteSchemes → (∃ s : String, f.path = s ++ "/") →
      f.filename = "" ∧ f.filepath = .ok "") := by
  constructor
  · exact ⟨by decide, by decide⟩
  · rintro url f h hs ⟨s, hp⟩
    obtain ⟨hl, hn, -⟩ := File.make_fields h
    have hb : f.filename = "" := by
      rw [hn, hp]
      exact basenameStr_append_slash s
    refine ⟨hb, ?_⟩
    rw [File.filepath_of_none hl, if_pos hs, hb]

/-- Witness for C10 at `File("http://host/dir/")`. -/
theorem degenerate_paths_witness :
    fileDirSlash.filename = "" ∧ fileDirSlash.filepath = .ok "" :=
  degenerate_paths.2 "http://host/dir/" fileDirSlash (by decide) (by decide)
    ⟨"/dir", by decide⟩

end ParslFiles
